import Mathlib

/-!
Verification of the modern banking client (`banking_client.py`): the
authenticated-request pipeline — token acquisition and caching
(`AuthenticationManager.get_token`), request dispatch with retry and
exponential backoff (`_make_request_with_retry`), and the response
classification done by `validate_account`, `get_account_balance` and
`transfer_funds`, together with the local validation performed by the
`TransferRequest` constructor.

The embedding is shallow: each network dispatch is driven by an oracle
`Nat → Option (HttpResponse β)` giving, for each attempt index, either a
response (`some`) or a network-level `aiohttp.ClientError` (`none`).
Monetary amounts and clock times are rationals (times in seconds); JSON
bodies are records of optional fields, mirroring Python's `dict.get`.
Logging, HTTP headers (including bearer-token attachment) and the literal
exception text interpolated into error messages are elided.
-/

namespace Banking

/-- Errors raised by the client: `valueError` models Python's `ValueError`
(local input validation), `bankingError` models `BankingClientError`.
Messages keep the source's fixed text; interpolated exception reprs are
elided. -/
inductive ClientError where
  | valueError (msg : String)
  | bankingError (msg : String)
deriving DecidableEq

/-- An HTTP response as the pipeline observes it: status code and parsed body. -/
structure HttpResponse (β : Type) where
  status : Nat
  body : β
deriving DecidableEq

/-- The fields of `BankingConfig` that the pipeline reads. -/
structure BankingConfig where
  base_url : String
  max_retries : Nat
  retry_delay : ℚ
deriving DecidableEq

/-- Result of the retry loop: the outcome (a response, or the
`BankingClientError` raised on exhaustion), the number of dispatch attempts
made, and the list of backoff delays slept between attempts. -/
structure RetryResult (β : Type) where
  outcome : Except ClientError (HttpResponse β)
  attempts : Nat
  delays : List ℚ

/-- The loop body of `_make_request_with_retry`, entered at absolute attempt
index `attempt` with `remaining` further attempts allowed after this one
(`remaining = max_retries - attempt`; `remaining = 0` means
`attempt == max_retries`).  A response with status < 500 returns
immediately; otherwise, and on a network error, the loop either raises
`BankingClientError` (budget exhausted — via `raise_for_status` caught by
the `ClientError` handler) or sleeps `retry_delay * 2 ^ attempt` and
retries. -/
def retryGo (retry_delay : ℚ) (oracle : Nat → Option (HttpResponse β)) :
    Nat → Nat → RetryResult β
  | attempt, 0 =>
    match oracle attempt with
    | some resp =>
      if resp.status < 500 then ⟨.ok resp, 1, []⟩
      else ⟨.error (.bankingError "Network error"), 1, []⟩
    | none => ⟨.error (.bankingError "Network error"), 1, []⟩
  | attempt, remaining + 1 =>
    match oracle attempt with
    | some resp =>
      if resp.status < 500 then ⟨.ok resp, 1, []⟩
      else
        let rest := retryGo retry_delay oracle (attempt + 1) remaining
        ⟨rest.outcome, rest.attempts + 1, retry_delay * 2 ^ attempt :: rest.delays⟩
    | none =>
      let rest := retryGo retry_delay oracle (attempt + 1) remaining
      ⟨rest.outcome, rest.attempts + 1, retry_delay * 2 ^ attempt :: rest.delays⟩

/-- `_make_request_with_retry`: run the loop
`for attempt in range(max_retries + 1)` from attempt 0. -/
def make_request_with_retry (cfg : BankingConfig)
    (oracle : Nat → Option (HttpResponse β)) : RetryResult β :=
  retryGo cfg.retry_delay oracle 0 cfg.max_retries

/-- A response with status < 500 is returned at once, whatever the budget. -/
theorem retryGo_fast (retry_delay : ℚ) (oracle : Nat → Option (HttpResponse β))
    (attempt remaining : Nat) (resp : HttpResponse β)
    (h : oracle attempt = some resp) (hs : resp.status < 500) :
    retryGo retry_delay oracle attempt remaining = ⟨.ok resp, 1, []⟩ := by
  cases remaining <;> simp [retryGo, h, hs]

/-- A response with status ≥ 500 while budget remains recurses, adding one
attempt and one backoff delay. -/
theorem retryGo_step (retry_delay : ℚ) (oracle : Nat → Option (HttpResponse β))
    (attempt remaining : Nat) (resp : HttpResponse β)
    (h : oracle attempt = some resp) (hs : ¬ resp.status < 500) :
    retryGo retry_delay oracle attempt (remaining + 1) =
      ⟨(retryGo retry_delay oracle (attempt + 1) remaining).outcome,
       (retryGo retry_delay oracle (attempt + 1) remaining).attempts + 1,
       retry_delay * 2 ^ attempt ::
         (retryGo retry_delay oracle (attempt + 1) remaining).delays⟩ := by
  simp [retryGo, h, hs]

/-- C1: with a 500 then a 200 response and at least one retry allowed, the
dispatch makes exactly 2 attempts and returns the 200 response; with 500 on
every attempt and `max_retries = 2` it makes exactly 3 attempts and
terminates with the `BankingClientError` raised on exhaustion; and any first
response with status < 500 is returned after exactly 1 attempt. -/
theorem retry_attempt_counts (cfg : BankingConfig)
    (oracle : Nat → Option (HttpResponse β)) :
    (∀ b0 b1, oracle 0 = some ⟨500, b0⟩ → oracle 1 = some ⟨200, b1⟩ →
      1 ≤ cfg.max_retries →
      (make_request_with_retry cfg oracle).attempts = 2 ∧
      (make_request_with_retry cfg oracle).outcome = .ok ⟨200, b1⟩) ∧
    ((∀ n, ∃ b, oracle n = some ⟨500, b⟩) → cfg.max_retries = 2 →
      (make_request_with_retry cfg oracle).attempts = 3 ∧
      (make_request_with_retry cfg oracle).outcome =
        .error (.bankingError "Network error")) ∧
    (∀ resp, oracle 0 = some resp → resp.status < 500 →
      (make_request_with_retry cfg oracle).attempts = 1 ∧
      (make_request_with_retry cfg oracle).outcome = .ok resp) := by
  refine ⟨?_, ?_, ?_⟩
  · intro b0 b1 h0 h1 hmr
    obtain ⟨r, hr⟩ : ∃ r, cfg.max_retries = r + 1 := by
      cases hm : cfg.max_retries with
      | zero => omega
      | succ r => exact ⟨r, rfl⟩
    unfold make_request_with_retry
    rw [hr, retryGo_step cfg.retry_delay oracle 0 r ⟨500, b0⟩ h0 (by simp),
      retryGo_fast cfg.retry_delay oracle 1 r ⟨200, b1⟩ h1 (by simp)]
    exact ⟨rfl, rfl⟩
  · intro hall hmr
    obtain ⟨c0, h0⟩ := hall 0
    obtain ⟨c1, h1⟩ := hall 1
    obtain ⟨c2, h2⟩ := hall 2
    unfold make_request_with_retry
    rw [hmr, retryGo_step cfg.retry_delay oracle 0 1 ⟨500, c0⟩ h0 (by simp),
      retryGo_step cfg.retry_delay oracle 1 0 ⟨500, c1⟩ h1 (by simp)]
    simp [retryGo, h2]
  · intro resp h0 hs
    unfold make_request_with_retry
    rw [retryGo_fast cfg.retry_delay oracle 0 cfg.max_retries resp h0 hs]
    exact ⟨rfl, rfl⟩

/-- A sample configuration used to instantiate theorems with hypotheses. -/
def cfg0 : BankingConfig := ⟨"http://localhost:8123", 2, 1⟩

/-- An oracle answering 500 on the first attempt and 200 afterwards. -/
def oracleFlaky : Nat → Option (HttpResponse Unit) :=
  fun n => if n = 0 then some ⟨500, ()⟩ else some ⟨200, ()⟩

/-- An oracle answering 500 on every attempt. -/
def oracleDown : Nat → Option (HttpResponse Unit) := fun _ => some ⟨500, ()⟩

/-- C1 witness: all three retry-count facts at concrete inputs. -/
theorem retry_attempt_counts_witness :
    ((make_request_with_retry cfg0 oracleFlaky).attempts = 2 ∧
      (make_request_with_retry cfg0 oracleFlaky).outcome = .ok ⟨200, ()⟩) ∧
    ((make_request_with_retry cfg0 oracleDown).attempts = 3 ∧
      (make_request_with_retry cfg0 oracleDown).outcome =
        .error (.bankingError "Network error")) ∧
    ((make_request_with_retry cfg0 (fun _ => some ⟨404, ()⟩)).attempts = 1 ∧
      (make_request_with_retry cfg0 (fun _ => some ⟨404, ()⟩)).outcome =
        .ok ⟨404, ()⟩) :=
  ⟨(retry_attempt_counts cfg0 oracleFlaky).1 () () rfl rfl (by decide),
   ⟨(retry_attempt_counts cfg0 oracleDown).2.1 (fun n => ⟨(), rfl⟩) rfl,
    (retry_attempt_counts cfg0 (fun _ => some ⟨404, ()⟩)).2.2 ⟨404, ()⟩ rfl
      (by decide)⟩⟩

/-- Every delay recorded by the loop from attempt index `attempt` equals
`retry_delay * 2 ^ (absolute attempt index)`. -/
theorem retryGo_delays_get (retry_delay : ℚ) (oracle : Nat → Option (HttpResponse β))
    (remaining : Nat) :
    ∀ attempt i x,
      (retryGo retry_delay oracle attempt remaining).delays.get? i = some x →
      x = retry_delay * 2 ^ (attempt + i) := by
  induction remaining with
  | zero =>
    intro attempt i x h
    cases ho : oracle attempt with
    | none => simp [retryGo, ho] at h
    | some resp =>
      by_cases hs : resp.status < 500 <;> simp [retryGo, ho, hs] at h
  | succ r ih =>
    intro attempt i x h
    have step :
        ∀ hgo : (retryGo retry_delay oracle attempt (r + 1)).delays =
          retry_delay * 2 ^ attempt ::
            (retryGo retry_delay oracle (attempt + 1) r).delays,
        x = retry_delay * 2 ^ (attempt + i) := by
      intro hgo
      rw [hgo] at h
      cases i with
      | zero => simpa using h.symm
      | succ j =>
        have hj : (retryGo retry_delay oracle (attempt + 1) r).delays.get? j =
            some x := by simpa using h
        have := ih (attempt + 1) j x hj
        have harith : attempt + 1 + j = attempt + (j + 1) := by omega
        rwa [harith] at this
    cases ho : oracle attempt with
    | none => exact step (by simp [retryGo, ho])
    | some resp =>
      by_cases hs : resp.status < 500
      · rw [retryGo_fast retry_delay oracle attempt (r + 1) resp ho hs] at h
        simp at h
      · exact step (by simp [retryGo, ho, hs])

/-- C9: the backoff delay slept before each retry is the pure function
`retry_delay * 2 ^ attempt` of the attempt index (starting at 0), so the
delay exactly doubles from each retry to the next, with no jitter and no
cap. -/
theorem backoff_delays (cfg : BankingConfig)
    (oracle : Nat → Option (HttpResponse β)) :
    (∀ i x, (make_request_with_retry cfg oracle).delays.get? i = some x →
      x = cfg.retry_delay * 2 ^ i) ∧
    (∀ i x y, (make_request_with_retry cfg oracle).delays.get? i = some x →
      (make_request_with_retry cfg oracle).delays.get? (i + 1) = some y →
      y = 2 * x) := by
  constructor
  · intro i x h
    simpa using retryGo_delays_get cfg.retry_delay oracle cfg.max_retries 0 i x h
  · intro i x y hx hy
    have h1 := retryGo_delays_get cfg.retry_delay oracle cfg.max_retries 0 i x hx
    have h2 := retryGo_delays_get cfg.retry_delay oracle cfg.max_retries 0 (i + 1)
      y hy
    simp only [Nat.zero_add] at h1 h2
    rw [h1, h2, pow_succ]
    ring

/-- C9 witness: with base delay 1 and two retries against a permanently
failing service, the recorded delays are 1 and 2, matching the formula and
the doubling contract. -/
theorem backoff_delays_witness :
    (make_request_with_retry cfg0 oracleDown).delays.get? 0 = some 1 ∧
    (make_request_with_retry cfg0 oracleDown).delays.get? 1 = some 2 ∧
    (1 : ℚ) = cfg0.retry_delay * 2 ^ 0 ∧ (2 : ℚ) = 2 * 1 := by
  have hd : (make_request_with_retry cfg0 oracleDown).delays = [1, 2] := by
    simp [make_request_with_retry, retryGo, cfg0, oracleDown]
  exact ⟨by rw [hd]; rfl, by rw [hd]; rfl,
    (backoff_delays cfg0 oracleDown).1 0 1 (by rw [hd]; rfl),
    (backoff_delays cfg0 oracleDown).2 0 1 2 (by rw [hd]; rfl) (by rw [hd]; rfl)⟩

/-- Body of a `/authToken` response: the optional `token` field
(`token_data.get("token")`). -/
structure AuthBody where
  token : Option String
deriving DecidableEq

/-- The token cache of `AuthenticationManager`: scope → (token, expiry).
Times are rationals in seconds. -/
def TokenCache : Type := String → Option (String × ℚ)

/-- `self._token_expiry_buffer = timedelta(minutes=5)`, in seconds. -/
def tokenExpiryBuffer : ℚ := 300

/-- `timedelta(hours=1)` — the assumed token lifetime, in seconds. -/
def tokenLifetime : ℚ := 3600

/-- The "request new token" tail of `get_token`: one POST to `/authToken`,
whose result is `net` (`none` models the caught exception).  On 200 with a
truthy `token` field the token is cached with expiry `now + 1 hour` and
returned; otherwise `None` is returned and the cache is untouched.  Returns
(token, updated cache, network requests issued). -/
def requestToken (cache : TokenCache) (now : ℚ)
    (net : Option (HttpResponse AuthBody)) (scope : String) :
    Option String × TokenCache × Nat :=
  match net with
  | none => (none, cache, 1)
  | some resp =>
    if resp.status = 200 then
      match resp.body.token with
      | some t =>
        if t = "" then (none, cache, 1)
        else (some t,
          fun s => if s = scope then some (t, now + tokenLifetime) else cache s, 1)
      | none => (none, cache, 1)
    else (none, cache, 1)

/-- `AuthenticationManager.get_token`: serve from the cache when the entry's
expiry minus the 5-minute buffer is still in the future, otherwise request a
new token. -/
def get_token (cache : TokenCache) (now : ℚ)
    (net : Option (HttpResponse AuthBody)) (scope : String) :
    Option String × TokenCache × Nat :=
  match cache scope with
  | some (token, expiry) =>
    if now < expiry - tokenExpiryBuffer then (some token, cache, 0)
    else requestToken cache now net scope
  | none => requestToken cache now net scope

/-- The refresh path always issues exactly one network request. -/
theorem requestToken_requests (cache : TokenCache) (now : ℚ)
    (net : Option (HttpResponse AuthBody)) (scope : String) :
    (requestToken cache now net scope).2.2 = 1 := by
  unfold requestToken
  cases net with
  | none => rfl
  | some resp =>
    by_cases h2 : resp.status = 200
    · cases ht : resp.body.token with
      | none => simp [h2, ht]
      | some t => by_cases he : t = "" <;> simp [h2, ht, he]
    · simp [h2]

/-- C2: a cached token whose expiry minus the 5-minute buffer is still in
the future is returned with no network request; once
(expiry − 5 min) ≤ now, the next `get_token` call issues exactly one network
request. -/
theorem getToken_cache_policy (cache : TokenCache) (now : ℚ)
    (net : Option (HttpResponse AuthBody)) (scope t : String) (expiry : ℚ) :
    (cache scope = some (t, expiry) → now < expiry - tokenExpiryBuffer →
      get_token cache now net scope = (some t, cache, 0)) ∧
    (cache scope = some (t, expiry) → expiry - tokenExpiryBuffer ≤ now →
      (get_token cache now net scope).2.2 = 1) := by
  constructor
  · intro hc hfresh
    simp [get_token, hc, hfresh]
  · intro hc hstale
    rw [get_token, hc]
    simp only [not_lt.mpr hstale, if_false]
    exact requestToken_requests cache now net scope

/-- The cache state used to instantiate token-cache theorems: a "transfer"
token expiring at time 4000. -/
def cacheOne : TokenCache :=
  fun s => if s = "transfer" then some ("tok", 4000) else none

/-- C2 witness: at time 3800 the cached token (expiry 4000) is within the
buffer window and a refresh is issued; at time 3000 it is served from the
cache with no network request. -/
theorem getToken_cache_policy_witness :
    (cacheOne "transfer" = some ("tok", 4000) ∧
      (3000 : ℚ) < 4000 - tokenExpiryBuffer ∧
      get_token cacheOne 3000 none "transfer" = (some "tok", cacheOne, 0)) ∧
    ((4000 : ℚ) - tokenExpiryBuffer ≤ 3800 ∧
      (get_token cacheOne 3800 none "transfer").2.2 = 1) :=
  ⟨⟨rfl, by norm_num [tokenExpiryBuffer],
    (getToken_cache_policy cacheOne 3000 none "transfer" "tok" 4000).1 rfl
      (by norm_num [tokenExpiryBuffer])⟩,
   by norm_num [tokenExpiryBuffer],
   (getToken_cache_policy cacheOne 3800 none "transfer" "tok" 4000).2 rfl
     (by norm_num [tokenExpiryBuffer])⟩

/-- Under a stale-or-missing cache entry, `get_token` runs the refresh
path. -/
theorem getToken_stale_eq_requestToken (cache : TokenCache) (now : ℚ)
    (net : Option (HttpResponse AuthBody)) (scope : String)
    (hstale : ∀ p : String × ℚ, cache scope = some p →
      ¬ now < p.2 - tokenExpiryBuffer) :
    get_token cache now net scope = requestToken cache now net scope := by
  unfold get_token
  cases hc : cache scope with
  | none => rfl
  | some p =>
    obtain ⟨t, e⟩ := p
    simp only [hstale ⟨t, e⟩ hc, if_false]

/-- C3 counterexample: a 200 authentication response whose `token` field is
present but empty.  The claim predicts the token is stored and returned;
`get_token` instead returns `none` (`if token:` is false on `""`) and caches
nothing. -/
theorem getToken_emptyToken_counterexample :
    (get_token (fun _ => none) 0 (some ⟨200, ⟨some ""⟩⟩) "transfer").1 = none ∧
    (get_token (fun _ => none) 0 (some ⟨200, ⟨some ""⟩⟩) "transfer").2.1
      "transfer" = none :=
  ⟨rfl, rfl⟩

/-- C3 (amended): with no fresh cache entry, `get_token` issues one
request; on 200 with a non-empty `token` field it caches
(token, now + 1 hour) for the scope and returns the token; on any other
status, a missing or empty `token` field, or a network exception, it returns
`none` and leaves the cache unchanged. -/
theorem getToken_refresh (cache : TokenCache) (now : ℚ)
    (net : Option (HttpResponse AuthBody)) (scope : String)
    (hstale : ∀ p : String × ℚ, cache scope = some p →
      ¬ now < p.2 - tokenExpiryBuffer) :
    ((get_token cache now net scope).2.2 = 1) ∧
    (∀ t, net = some ⟨200, ⟨some t⟩⟩ → t ≠ "" →
      (get_token cache now net scope).1 = some t ∧
      (get_token cache now net scope).2.1 scope = some (t, now + tokenLifetime) ∧
      (∀ s, s ≠ scope →
        (get_token cache now net scope).2.1 s = cache s)) ∧
    ((net = none ∨ ∀ resp, net = some resp → resp.status ≠ 200 ∨
        resp.body.token = none ∨ resp.body.token = some "") →
      (get_token cache now net scope).1 = none ∧
      (get_token cache now net scope).2.1 = cache) := by
  rw [getToken_stale_eq_requestToken cache now net scope hstale]
  refine ⟨requestToken_requests cache now net scope, ?_, ?_⟩
  · intro t hnet ht
    subst hnet
    simp [requestToken, ht]
    intro s hs hs2
    exact absurd hs2 hs
  · intro hbad
    cases hnet : net with
    | none => simp [requestToken]
    | some resp =>
      rcases hbad with hbad | hbad
      · rw [hnet] at hbad; cases hbad
      rcases hbad resp hnet with h2 | ht | ht
      · simp [requestToken, h2]
      · simp [requestToken, ht]
      · simp [requestToken, ht]

/-- C3 witness: from an empty cache, a 200 response carrying token "tok"
yields the token, one request, and the cache entry ("tok", 3600) at time 0;
other scopes stay empty. -/
theorem getToken_refresh_witness :
    ((get_token (fun _ => none) 0 (some ⟨200, ⟨some "tok"⟩⟩) "transfer").2.2
      = 1) ∧
    ((get_token (fun _ => none) 0 (some ⟨200, ⟨some "tok"⟩⟩) "transfer").1
      = some "tok") ∧
    ((get_token (fun _ => none) 0 (some ⟨200, ⟨some "tok"⟩⟩) "transfer").2.1
      "transfer" = some ("tok", 0 + tokenLifetime)) ∧
    ((get_token (fun _ => none) 0 (some ⟨401, ⟨none⟩⟩) "enquiry").1 = none ∧
      (get_token (fun _ => none) 0 (some ⟨401, ⟨none⟩⟩) "enquiry").2.1 =
        (fun _ => none)) := by
  have hstale : ∀ p : String × ℚ, (fun _ : String => none) "transfer" =
      some p → ¬ (0 : ℚ) < p.2 - tokenExpiryBuffer := by
    intro p h; cases h
  have hstale2 : ∀ p : String × ℚ, (fun _ : String => none) "enquiry" =
      some p → ¬ (0 : ℚ) < p.2 - tokenExpiryBuffer := by
    intro p h; cases h
  have h1 := getToken_refresh (fun _ => none) 0 (some ⟨200, ⟨some "tok"⟩⟩)
    "transfer" hstale
  have h2 := getToken_refresh (fun _ => none) 0 (some ⟨401, ⟨none⟩⟩)
    "enquiry" hstale2
  have hmain := h1.2.1 "tok" rfl (by decide)
  exact ⟨h1.1, hmain.1, hmain.2.1,
    h2.2.2 (Or.inr (by intro resp hr; cases hr; exact Or.inl (by decide)))⟩

/-- Python's `str.strip()` (ASCII whitespace): drop whitespace from both
ends. -/
def pyStrip (s : String) : String :=
  ⟨((s.data.dropWhile Char.isWhitespace).reverse.dropWhile
    Char.isWhitespace).reverse⟩

/-- Python's `str.upper()` on ASCII identifiers. -/
def pyUpper (s : String) : String := ⟨s.data.map Char.toUpper⟩

/-- Body of an account validation response, as read through `dict.get`:
every field may be absent. -/
structure AccountInfo where
  accountId : Option String
  isValid : Option Bool
  accountType : Option String
  status : Option String
deriving DecidableEq

/-- Result of a higher-level operation: the returned value or raised error,
the number of network dispatch attempts made for this operation's endpoint,
and the request URL built (`none` when the operation failed before building
it). -/
structure OpResult (α : Type) where
  result : Except ClientError α
  requests : Nat
  url : Option String

/-- `ModernBankingClient.validate_account`: reject empty/whitespace ids with
`ValueError` before any network call; otherwise strip and upper-case the id,
build the validate URL, dispatch with retry, and classify: 200 returns the
body, 404 returns the NOT_FOUND outcome, anything else raises
`BankingClientError`. -/
def validate_account (cfg : BankingConfig)
    (oracle : Nat → Option (HttpResponse AccountInfo)) (account_id : String) :
    OpResult AccountInfo :=
  if pyStrip account_id = "" then
    ⟨.error (.valueError "Account ID cannot be empty"), 0, none⟩
  else
    let a := pyUpper (pyStrip account_id)
    let url := cfg.base_url ++ "/accounts/validate/" ++ a
    let r := make_request_with_retry cfg oracle
    match r.outcome with
    | .ok resp =>
      if resp.status = 200 then ⟨.ok resp.body, r.attempts, some url⟩
      else if resp.status = 404 then
        ⟨.ok ⟨some a, some false, none, some "NOT_FOUND"⟩, r.attempts, some url⟩
      else
        ⟨.error (.bankingError ("Validation failed: " ++ toString resp.status)),
         r.attempts, some url⟩
    | .error e => ⟨.error e, r.attempts, some url⟩

/-- `ModernBankingClient.get_account_balance`: same empty-id guard and
normalization, then dispatch; only 200 returns the body — every other
status raises `BankingClientError`. -/
def get_account_balance (cfg : BankingConfig)
    (oracle : Nat → Option (HttpResponse β)) (account_id : String) :
    OpResult β :=
  if pyStrip account_id = "" then
    ⟨.error (.valueError "Account ID cannot be empty"), 0, none⟩
  else
    let a := pyUpper (pyStrip account_id)
    let url := cfg.base_url ++ "/accounts/balance/" ++ a
    let r := make_request_with_retry cfg oracle
    match r.outcome with
    | .ok resp =>
      if resp.status = 200 then ⟨.ok resp.body, r.attempts, some url⟩
      else
        ⟨.error (.bankingError ("Balance retrieval failed: " ++
          toString resp.status)), r.attempts, some url⟩
    | .error e => ⟨.error e, r.attempts, some url⟩

/-- C6: a 404 response to the validate operation yields the NotFound outcome
value (isValid false, status NOT_FOUND) returned to the caller, not a raised
error. -/
theorem validate_404_notFound (cfg : BankingConfig)
    (oracle : Nat → Option (HttpResponse AccountInfo)) (account_id : String)
    (b : AccountInfo) (hid : pyStrip account_id ≠ "")
    (h0 : oracle 0 = some ⟨404, b⟩) :
    (validate_account cfg oracle account_id).result =
      .ok ⟨some (pyUpper (pyStrip account_id)), some false, none,
        some "NOT_FOUND"⟩ := by
  have hretry := retryGo_fast cfg.retry_delay oracle 0 cfg.max_retries
    ⟨404, b⟩ h0 (by simp)
  simp [validate_account, hid, make_request_with_retry, hretry]

/-- C6 witness: account "INVALID" with a 404 remote response validates to
the NOT_FOUND outcome. -/
theorem validate_404_notFound_witness :
    pyStrip "INVALID" ≠ "" ∧
    (validate_account cfg0 (fun _ => some ⟨404, ⟨none, none, none, none⟩⟩)
      "INVALID").result =
      .ok ⟨some (pyUpper (pyStrip "INVALID")), some false, none,
        some "NOT_FOUND"⟩ :=
  ⟨by decide, validate_404_notFound cfg0
    (fun _ => some ⟨404, ⟨none, none, none, none⟩⟩) "INVALID"
    ⟨none, none, none, none⟩ (by decide) rfl⟩

/-- C5 counterexample: a 404 response to the balance operation raises
`BankingClientError("Balance retrieval failed: 404")`; no not-found outcome
is returned. -/
theorem balance_404_counterexample :
    (get_account_balance cfg0 (fun _ => some ⟨404, ()⟩) "ACC1000").result =
      .error (.bankingError "Balance retrieval failed: 404") := by
  have hid : pyStrip "ACC1000" ≠ "" := by decide
  have hretry := retryGo_fast cfg0.retry_delay (fun _ => some ⟨404, ()⟩)
    0 cfg0.max_retries ⟨404, ()⟩ rfl (by simp)
  simp [get_account_balance, hid, make_request_with_retry, hretry]
  rfl

/-- C5 (amended): a 404 response to the balance operation raises
`BankingClientError("Balance retrieval failed: 404")` — unlike validate,
balance does not map 404 to a not-found outcome. -/
theorem balance_404_raises (cfg : BankingConfig)
    (oracle : Nat → Option (HttpResponse β)) (account_id : String) (b : β)
    (hid : pyStrip account_id ≠ "") (h0 : oracle 0 = some ⟨404, b⟩) :
    (get_account_balance cfg oracle account_id).result =
      .error (.bankingError "Balance retrieval failed: 404") := by
  have hretry := retryGo_fast cfg.retry_delay oracle 0 cfg.max_retries
    ⟨404, b⟩ h0 (by simp)
  simp [get_account_balance, hid, make_request_with_retry, hretry]
  rfl

/-- C5 witness for the amended claim, at a concrete account and oracle. -/
theorem balance_404_raises_witness :
    pyStrip "ACC2000" ≠ "" ∧
    (get_account_balance cfg0 (fun _ => some ⟨404, ()⟩) "ACC2000").result =
      .error (.bankingError "Balance retrieval failed: 404") :=
  ⟨by decide, balance_404_raises cfg0 (fun _ => some ⟨404, ()⟩) "ACC2000" ()
    (by decide) rfl⟩

/-- C10: an empty or whitespace-only account id makes both operations raise
`ValueError` (not `BankingClientError`) with zero network requests and no
URL built; for any other id, both operations build their URL from the
stripped, upper-cased id. -/
theorem account_id_guard (cfg : BankingConfig)
    (oracleV : Nat → Option (HttpResponse AccountInfo))
    (oracleB : Nat → Option (HttpResponse β)) (account_id : String) :
    (pyStrip account_id = "" →
      validate_account cfg oracleV account_id =
        ⟨.error (.valueError "Account ID cannot be empty"), 0, none⟩ ∧
      get_account_balance cfg oracleB account_id =
        ⟨.error (.valueError "Account ID cannot be empty"), 0, none⟩) ∧
    (pyStrip account_id ≠ "" →
      (validate_account cfg oracleV account_id).url =
        some (cfg.base_url ++ "/accounts/validate/" ++
          pyUpper (pyStrip account_id)) ∧
      (get_account_balance cfg oracleB account_id).url =
        some (cfg.base_url ++ "/accounts/balance/" ++
          pyUpper (pyStrip account_id))) := by
  constructor
  · intro hid
    exact ⟨by simp [validate_account, hid], by simp [get_account_balance, hid]⟩
  · intro hid
    constructor
    · unfold validate_account
      rw [if_neg hid]
      dsimp only
      split
      · split
        · rfl
        · split <;> rfl
      · rfl
    · unfold get_account_balance
      rw [if_neg hid]
      dsimp only
      split
      · split <;> rfl
      · rfl

/-- C10 witness: the whitespace id "   " raises the `ValueError` with no
request and no URL on both operations; " acc1000 " yields the normalized
URLs. -/
theorem account_id_guard_witness :
    (pyStrip "   " = "" ∧
      validate_account cfg0 (fun _ => none) "   " =
        ⟨.error (.valueError "Account ID cannot be empty"), 0, none⟩ ∧
      get_account_balance cfg0 (fun _ => (none : Option (HttpResponse Unit)))
        "   " = ⟨.error (.valueError "Account ID cannot be empty"), 0, none⟩) ∧
    (pyStrip " acc1000 " ≠ "" ∧
      (validate_account cfg0 (fun _ => none) " acc1000 ").url =
        some (cfg0.base_url ++ "/accounts/validate/" ++
          pyUpper (pyStrip " acc1000 ")) ∧
      (get_account_balance cfg0
        (fun _ => (none : Option (HttpResponse Unit))) " acc1000 ").url =
        some (cfg0.base_url ++ "/accounts/balance/" ++
          pyUpper (pyStrip " acc1000 "))) :=
  ⟨⟨by decide,
    (account_id_guard cfg0 (fun _ => none)
      (fun _ => (none : Option (HttpResponse Unit))) "   ").1 (by decide)⟩,
   by decide,
   (account_id_guard cfg0 (fun _ => none)
     (fun _ => (none : Option (HttpResponse Unit))) " acc1000 ").2
     (by decide)⟩

/-- Round half to even on rationals, as Python's `round` does on exact
values: on a tie (fractional part exactly 1/2) pick the even neighbour,
otherwise the nearest integer. -/
def roundHalfEven (q : ℚ) : ℤ :=
  if q - ⌊q⌋ = (1 : ℚ) / 2 then 2 * round (q / 2) else round q

/-- `round(amount, 2)`: round to 2 fractional digits. -/
def round2 (q : ℚ) : ℚ := (roundHalfEven (q * 100) : ℚ) / 100

/-- The `TransferRequest` dataclass after `__post_init__` has run. -/
structure TransferRequest where
  from_account : String
  to_account : String
  amount : ℚ
  description : Option String
deriving DecidableEq

/-- `TransferRequest.__post_init__`: reject empty account ids, non-positive
amounts and amounts over 1,000,000 with `ValueError`; then strip and
upper-case the account ids and round the amount to 2 decimal places. -/
def TransferRequest.make (from_account to_account : String) (amount : ℚ)
    (description : Option String) : Except ClientError TransferRequest :=
  if from_account = "" ∨ to_account = "" then
    .error (.valueError "Account IDs cannot be empty")
  else if amount ≤ 0 then .error (.valueError "Amount must be positive")
  else if amount > 1000000 then
    .error (.valueError "Amount exceeds maximum limit")
  else
    .ok ⟨pyUpper (pyStrip from_account), pyUpper (pyStrip to_account),
      round2 amount, description⟩

/-- C7: constructing a `TransferRequest` with amount ≤ 0 or
amount > 1,000,000 always fails with a `ValueError` at construction time;
the constructor is local and performs no network dispatch. -/
theorem transferRequest_amount_bounds (f t : String) (a : ℚ)
    (d : Option String) (h : a ≤ 0 ∨ 1000000 < a) :
    ∃ msg, TransferRequest.make f t a d = .error (.valueError msg) := by
  unfold TransferRequest.make
  by_cases he : f = "" ∨ t = ""
  · exact ⟨"Account IDs cannot be empty", by rw [if_pos he]⟩
  · rw [if_neg he]
    rcases h with h | h
    · exact ⟨"Amount must be positive", by rw [if_pos h]⟩
    · by_cases hp : a ≤ 0
      · exact ⟨"Amount must be positive", by rw [if_pos hp]⟩
      · exact ⟨"Amount exceeds maximum limit",
          by rw [if_neg hp, if_pos h]⟩

/-- C7 witness: amount −50 is rejected with a `ValueError`. -/
theorem transferRequest_amount_bounds_witness :
    ((-50 : ℚ) ≤ 0 ∨ (1000000 : ℚ) < -50) ∧
    ∃ msg, TransferRequest.make "ACC1000" "ACC1001" (-50) none =
      .error (.valueError msg) :=
  ⟨Or.inl (by norm_num),
   transferRequest_amount_bounds "ACC1000" "ACC1001" (-50) none
     (Or.inl (by norm_num))⟩

/-- C8: every successfully constructed `TransferRequest` stores the amount
rounded to exactly 2 fractional digits (an integer number of hundredths) and
the account ids stripped of surrounding whitespace and upper-cased. -/
theorem transferRequest_normalization (f t : String) (a : ℚ)
    (d : Option String) (r : TransferRequest)
    (h : TransferRequest.make f t a d = .ok r) :
    r.amount = round2 a ∧ (∃ n : ℤ, r.amount = (n : ℚ) / 100) ∧
    r.from_account = pyUpper (pyStrip f) ∧
    r.to_account = pyUpper (pyStrip t) := by
  unfold TransferRequest.make at h
  by_cases he : f = "" ∨ t = ""
  · rw [if_pos he] at h; cases h
  rw [if_neg he] at h
  by_cases hp : a ≤ 0
  · rw [if_pos hp] at h; cases h
  rw [if_neg hp] at h
  by_cases hm : a > 1000000
  · rw [if_pos hm] at h; cases h
  rw [if_neg hm] at h
  cases h
  exact ⟨rfl, ⟨roundHalfEven (a * 100), rfl⟩, rfl, rfl⟩

/-- C8 witness: inputs "  acc1000  ", "acc1001", 100.5 construct
successfully and are normalized as claimed. -/
theorem transferRequest_normalization_witness :
    TransferRequest.make "  acc1000  " "acc1001" (201 / 2) none =
      .ok ⟨"ACC1000", "ACC1001", 201 / 2, none⟩ ∧
    ((201 : ℚ) / 2 = round2 (201 / 2) ∧
      (∃ n : ℤ, (201 : ℚ) / 2 = (n : ℚ) / 100) ∧
      "ACC1000" = pyUpper (pyStrip "  acc1000  ") ∧
      "ACC1001" = pyUpper (pyStrip "acc1001")) := by
  have hmk : TransferRequest.make "  acc1000  " "acc1001" (201 / 2) none =
      .ok ⟨"ACC1000", "ACC1001", 201 / 2, none⟩ := by
    unfold TransferRequest.make
    rw [if_neg (by simp), if_neg (by norm_num), if_neg (by norm_num)]
    have hr : round2 (201 / 2 : ℚ) = 201 / 2 := by
      unfold round2 roundHalfEven
      norm_num
    rw [hr]
    rfl
  have h := transferRequest_normalization "  acc1000  " "acc1001" (201 / 2)
    none ⟨"ACC1000", "ACC1001", 201 / 2, none⟩ hmk
  exact ⟨hmk, h.1, h.2.1, h.2.2.1, h.2.2.2⟩

/-- Body of a `/transfer` response, read through `dict.get` with defaults. -/
structure TransferBody where
  transactionId : Option String
  status : Option String
  message : Option String
  fromAccount : Option String
  toAccount : Option String
  amount : Option ℚ
deriving DecidableEq

/-- The `TransferResponse` dataclass (creation timestamp elided). -/
structure TransferResponse where
  transaction_id : String
  status : String
  message : String
  from_account : String
  to_account : String
  amount : ℚ
deriving DecidableEq

/-- `ModernBankingClient.transfer_funds`: validate both accounts first
(each through `validate_account` with its own oracle), raise
`BankingClientError` on an invalid source or destination before any
`POST /transfer` dispatch, then dispatch the transfer with retry; 200 builds
a `TransferResponse` from the body with defaults, anything else raises.
Returns the outcome and the number of `/transfer` network attempts. -/
def transfer_funds (cfg : BankingConfig) (req : TransferRequest)
    (oFrom oTo : Nat → Option (HttpResponse AccountInfo))
    (oTransfer : Nat → Option (HttpResponse TransferBody)) :
    Except ClientError TransferResponse × Nat :=
  match (validate_account cfg oFrom req.from_account).result with
  | .error e => (.error e, 0)
  | .ok from_info =>
    match (validate_account cfg oTo req.to_account).result with
    | .error e => (.error e, 0)
    | .ok to_info =>
      if from_info.isValid.getD false = false then
        (.error (.bankingError ("Invalid source account: " ++
          req.from_account)), 0)
      else if to_info.isValid.getD false = false then
        (.error (.bankingError ("Invalid destination account: " ++
          req.to_account)), 0)
      else
        let r := make_request_with_retry cfg oTransfer
        match r.outcome with
        | .ok resp =>
          if resp.status = 200 then
            (.ok ⟨resp.body.transactionId.getD "", resp.body.status.getD "",
              resp.body.message.getD "", resp.body.fromAccount.getD "",
              resp.body.toAccount.getD "", resp.body.amount.getD 0⟩,
             r.attempts)
          else
            (.error (.bankingError ("Transfer failed: " ++
              toString resp.status)), r.attempts)
        | .error e => (.error e, r.attempts)

/-- C4: a source account that validates as invalid makes the transfer fail
with zero `POST /transfer` dispatches, and — whenever the destination
validation completes rather than raising — the raised error is exactly the
invalid-source `BankingClientError` (both validations run before the
validity checks, so a destination validation that itself raises propagates
instead); and whenever a transfer dispatch did occur, both accounts had
been validated as valid beforehand. -/
theorem transfer_requires_valid_accounts (cfg : BankingConfig)
    (req : TransferRequest)
    (oFrom oTo : Nat → Option (HttpResponse AccountInfo))
    (oTransfer : Nat → Option (HttpResponse TransferBody)) :
    (∀ fi, (validate_account cfg oFrom req.from_account).result = .ok fi →
      fi.isValid.getD false = false →
      (transfer_funds cfg req oFrom oTo oTransfer).2 = 0 ∧
      (∀ ti, (validate_account cfg oTo req.to_account).result = .ok ti →
        transfer_funds cfg req oFrom oTo oTransfer =
          (.error (.bankingError ("Invalid source account: " ++
            req.from_account)), 0))) ∧
    ((transfer_funds cfg req oFrom oTo oTransfer).2 ≠ 0 →
      (∃ fi, (validate_account cfg oFrom req.from_account).result = .ok fi ∧
        fi.isValid.getD false = true) ∧
      (∃ ti, (validate_account cfg oTo req.to_account).result = .ok ti ∧
        ti.isValid.getD false = true)) := by
  constructor
  · intro fi hfi hinv
    unfold transfer_funds
    rw [hfi]
    cases hto : (validate_account cfg oTo req.to_account).result with
    | error e =>
      refine ⟨rfl, ?_⟩
      intro ti hti
      cases hti
    | ok ti =>
      constructor
      · simp [hinv]
      · intro ti2 hti
        simp [hinv]
  · intro hpos
    unfold transfer_funds at hpos
    cases hfi : (validate_account cfg oFrom req.from_account).result with
    | error e => rw [hfi] at hpos; simp at hpos
    | ok fi =>
      rw [hfi] at hpos
      cases hto : (validate_account cfg oTo req.to_account).result with
      | error e => rw [hto] at hpos; simp at hpos
      | ok ti =>
        rw [hto] at hpos
        by_cases hf : fi.isValid.getD false = false
        · simp [hf] at hpos
        · by_cases ht : ti.isValid.getD false = false
          · simp [hf, ht] at hpos
          · exact ⟨⟨fi, rfl, by simpa using hf⟩, ⟨ti, rfl, by simpa using ht⟩⟩

/-- The validation oracle reporting "INVALID" as an invalid account. -/
def oracleInvalid : Nat → Option (HttpResponse AccountInfo) :=
  fun _ => some ⟨200, ⟨some "INVALID", some false, none, none⟩⟩

/-- C4 witness: with the source reported invalid, the transfer fails with
the invalid-source error and makes no transfer dispatch. -/
theorem transfer_requires_valid_accounts_witness :
    (validate_account cfg0 oracleInvalid "INVALID").result =
      .ok ⟨some "INVALID", some false, none, none⟩ ∧
    (validate_account cfg0 oracleInvalid "ACC1001").result =
      .ok ⟨some "INVALID", some false, none, none⟩ ∧
    transfer_funds cfg0 ⟨"INVALID", "ACC1001", 100, none⟩ oracleInvalid
      oracleInvalid (fun _ => none) =
      (.error (.bankingError ("Invalid source account: " ++ "INVALID")), 0) := by
  have hgen : ∀ a : String, pyStrip a ≠ "" →
      (validate_account cfg0 oracleInvalid a).result =
        .ok ⟨some "INVALID", some false, none, none⟩ := by
    intro a hid
    have hretry := retryGo_fast cfg0.retry_delay oracleInvalid 0
      cfg0.max_retries ⟨200, ⟨some "INVALID", some false, none, none⟩⟩ rfl
      (by simp)
    simp [validate_account, hid, make_request_with_retry, hretry]
  have hv := hgen "INVALID" (by decide)
  have hv2 := hgen "ACC1001" (by decide)
  exact ⟨hv, hv2,
    ((transfer_requires_valid_accounts cfg0 ⟨"INVALID", "ACC1001", 100, none⟩
      oracleInvalid oracleInvalid (fun _ => none)).1
      ⟨some "INVALID", some false, none, none⟩ hv rfl).2
      ⟨some "INVALID", some false, none, none⟩ hv2⟩

end Banking
